import Mathlib

/-!
Shallow embedding of the core of the `supernote-tool` library
(`supernotelib/decoder.py`, `supernotelib/parser.py`, `supernotelib/converter.py`,
`supernotelib/fileformat.py`, `supernotelib/color.py`, `supernotelib/exceptions.py`)
together with theorems settling the frozen claims about it.

Conventions:
* Python `bytes` values are `List Nat` (each element a byte value).
* Python `int` is `Int` (or `Nat` where the source value is provably non-negative);
  machine-width stores (numpy arrays) take an explicit `% 2 ^ w`.
* Fallible Python code returns `Except PyErr _`; `PyErr` names the Python exception
  class that the corresponding source line raises.
* Insertion-ordered Python `dict`s are association lists with Python's update
  semantics (assignment to an existing key keeps its position, a fresh key is
  appended, `pop` removes).
-/

deriving instance DecidableEq for Except

namespace Supernote

/-- Python-level runtime errors and library exception classes that the modelled code
can raise (`exceptions.py` plus builtin Python exceptions). -/
inductive PyErr where
  | typeError
  | valueError
  | keyError
  | indexError
  | attributeError
  | osError
  | unicodeDecodeError
  | decoderException
  | unsupportedFileFormat
  deriving DecidableEq

/-- Color mode strings from `color.py`: `MODE_GRAYSCALE` / `MODE_RGB`. -/
inductive ColorMode where
  | grayscale
  | rgb
  deriving DecidableEq

/-- `color.ColorPalette`: mode, the four tone entries, the transparent sentinel and
the two compat grays (constructor `color.py` lines 57-77). -/
structure ColorPalette where
  mode : ColorMode
  black : Nat
  darkgray : Nat
  gray : Nat
  white : Nat
  transparent : Nat
  darkgrayCompat : Nat
  grayCompat : Nat
  deriving DecidableEq

/-- `color.DEFAULT_COLORPALETTE` (grayscale presets, `color.py` lines 23-29, 80-83). -/
def DEFAULT_COLORPALETTE : ColorPalette :=
  { mode := .grayscale
    black := 0x00
    darkgray := 0x9d
    gray := 0xc9
    white := 0xfe
    transparent := 0xff
    darkgrayCompat := 0x30
    grayCompat := 0x50 }

/-- `color.get_rgb`. -/
def getRgb (value : Nat) : Nat × Nat × Nat :=
  ((value &&& 0xff0000) >>> 16, (value &&& 0x00ff00) >>> 8, value &&& 0x0000ff)

namespace RattaRle

def COLORCODE_BLACK : Nat := 0x61
def COLORCODE_BACKGROUND : Nat := 0x62
def COLORCODE_DARK_GRAY : Nat := 0x63
def COLORCODE_GRAY : Nat := 0x64
def COLORCODE_WHITE : Nat := 0x65
def COLORCODE_MARKER_BLACK : Nat := 0x66
def COLORCODE_MARKER_DARK_GRAY : Nat := 0x67
def COLORCODE_MARKER_GRAY : Nat := 0x68

def SPECIAL_LENGTH_MARKER : Nat := 0xff
def SPECIAL_LENGTH : Nat := 0x4000
def SPECIAL_LENGTH_FOR_BLANK : Nat := 0x400

/-- `RattaRleDecoder._create_colormap` (decoder.py lines 195-206), as an association
list with the dict's eight distinct keys. -/
def createColormap (p : ColorPalette) : List (Nat × Nat) :=
  [(COLORCODE_BLACK, p.black),
   (COLORCODE_BACKGROUND, p.transparent),
   (COLORCODE_DARK_GRAY, p.darkgray),
   (COLORCODE_GRAY, p.gray),
   (COLORCODE_WHITE, p.white),
   (COLORCODE_MARKER_BLACK, p.black),
   (COLORCODE_MARKER_DARK_GRAY, p.darkgray),
   (COLORCODE_MARKER_GRAY, p.gray)]

/-- `RattaRleDecoder._create_color_bytearray` (decoder.py lines 208-215).
`colormap.get(color_code)` yields `None` for an unknown code; in RGB mode
`color.get_rgb(None)` then raises `TypeError` (`None & 0xff0000`), in grayscale mode
`bytearray((None,))` raises `TypeError`.  In grayscale mode `bytearray((c,))` raises
`ValueError` when the palette entry is not a byte. -/
def createColorBytearray (mode : ColorMode) (cmap : List (Nat × Nat))
    (colorCode length : Nat) : Except PyErr (List Nat) :=
  match mode with
  | .rgb =>
    match cmap.lookup colorCode with
    | none => .error .typeError
    | some c =>
      let (r, g, b) := getRgb c
      .ok (List.flatten (List.replicate length [r, g, b]))
  | .grayscale =>
    match cmap.lookup colorCode with
    | none => .error .typeError
    | some c =>
      if c ≤ 0xff then .ok (List.replicate length c) else .error .valueError

/-- The scan list `reversed(range(8))` of `RattaRleDecoder._adjust_tail_length`. -/
def adjustTailAux (tailLength : Nat) (gap : Int) : List Nat → Nat
  | [] => 0
  | i :: is =>
    let l := ((tailLength &&& 0x7f) + 1) <<< i
    if (l : Int) ≤ gap then l else adjustTailAux tailLength gap is

/-- `RattaRleDecoder._adjust_tail_length` (decoder.py lines 217-223). -/
def adjustTailLength (tailLength currentLength totalLength : Nat) : Nat :=
  adjustTailAux tailLength ((totalLength : Int) - (currentLength : Int))
    [7, 6, 5, 4, 3, 2, 1, 0]

/-- One iteration of the `while True` loop of `RattaRleDecoder.decode`
(decoder.py lines 148-178): held-pair processing (lines 153-162) followed by
fresh-pair processing when `data_pushed` is still false (lines 164-178).  Returns the
`(colorcode, length)` runs put on the `waiting` queue this iteration, in order, and
the new `holder`. -/
def rleStep (allBlank : Bool) (holder : Option (Nat × Nat)) (colorcode length : Nat) :
    List (Nat × Nat) × Option (Nat × Nat) :=
  let heldPart : List (Nat × Nat) × Bool :=
    match holder with
    | some (prevColorcode, prevLength) =>
      if colorcode = prevColorcode then
        ([(colorcode, 1 + length + (((prevLength &&& 0x7f) + 1) <<< 7))], true)
      else
        ([(prevColorcode, ((prevLength &&& 0x7f) + 1) <<< 7)], false)
    | none => ([], false)
  let (heldRuns, dataPushed) := heldPart
  if dataPushed then
    (heldRuns, none)
  else if length = SPECIAL_LENGTH_MARKER then
    (heldRuns ++ [(colorcode, if allBlank then SPECIAL_LENGTH_FOR_BLANK else SPECIAL_LENGTH)], none)
  else if length &&& 0x80 ≠ 0 then
    (heldRuns, some (colorcode, length))
  else
    (heldRuns ++ [(colorcode, length + 1)], none)

/-- Draining the `waiting` queue (decoder.py lines 180-182): each run is expanded
into pixel bytes and appended to `uncompressed`. -/
def emitRuns (mode : ColorMode) (cmap : List (Nat × Nat)) (acc : List Nat) :
    List (Nat × Nat) → Except PyErr (List Nat)
  | [] => .ok acc
  | (colorcode, length) :: rest =>
    match createColorBytearray mode cmap colorcode length with
    | .error e => .error e
    | .ok bs => emitRuns mode cmap (acc ++ bs) rest

/-- The `StopIteration` handler of `RattaRleDecoder.decode` (decoder.py lines
183-188): if a pair is still held, its length is adjusted against the shortfall and
the run is emitted when the adjusted length is positive. -/
def rleTail (mode : ColorMode) (cmap : List (Nat × Nat)) (expected : Nat)
    (holder : Option (Nat × Nat)) (acc : List Nat) : Except PyErr (List Nat) :=
  match holder with
  | some (colorcode, length) =>
    let l := adjustTailLength length acc.length expected
    if 0 < l then
      match createColorBytearray mode cmap colorcode l with
      | .error e => .error e
      | .ok bs => .ok (acc ++ bs)
    else .ok acc
  | none => .ok acc

/-- The `while True` loop of `RattaRleDecoder.decode` over the remaining byte
stream.  Python's `next(bin)` raises `StopIteration` either before a pair (empty
stream) or after reading only a colorcode (odd tail byte); in both cases the
`holder` of the previous iteration is still in force, which the one-byte case below
mirrors. -/
def rleLoop (mode : ColorMode) (cmap : List (Nat × Nat)) (allBlank : Bool)
    (expected : Nat) :
    List Nat → Option (Nat × Nat) → List Nat → Except PyErr (List Nat)
  | colorcode :: length :: rest, holder, acc =>
    match emitRuns mode cmap acc (rleStep allBlank holder colorcode length).1 with
    | .error e => .error e
    | .ok acc' =>
      rleLoop mode cmap allBlank expected rest
        (rleStep allBlank holder colorcode length).2 acc'
  | [_], holder, acc => rleTail mode cmap expected holder acc
  | [], holder, acc => rleTail mode cmap expected holder acc

/-- `RattaRleDecoder.decode` (decoder.py lines 107-193).  Returns the uncompressed
bytes, the bitmap size and the bit-per-pixel count, or the Python exception the
source raises. -/
def rleDecode (data : List Nat) (pageWidth pageHeight : Nat)
    (palette : Option ColorPalette) (allBlank horizontal : Bool) :
    Except PyErr (List Nat × (Nat × Nat) × Nat) :=
  let plt := palette.getD DEFAULT_COLORPALETTE
  let bitPerPixel : Nat := match plt.mode with | .rgb => 24 | .grayscale => 8
  let cmap := createColormap plt
  -- `page_height, page_width = (page_width, page_height)` when horizontal
  let pageHeight2 := if horizontal then pageWidth else pageHeight
  let pageWidth2 := if horizontal then pageHeight else pageWidth
  let expected := pageHeight2 * pageWidth2 * (bitPerPixel / 8)
  match rleLoop plt.mode cmap allBlank expected data none [] with
  | .error e => .error e
  | .ok uncompressed =>
    if uncompressed.length ≠ expected then .error .decoderException
    else .ok (uncompressed, (pageWidth2, pageHeight2), bitPerPixel)

end RattaRle

namespace Flate

def COLORCODE_BLACK : Nat := 0x0000
def COLORCODE_BACKGROUND : Nat := 0xffff
def COLORCODE_DARK_GRAY : Nat := 0x2104
def COLORCODE_GRAY : Nat := 0xe1e2

def INTERNAL_PAGE_HEIGHT : Nat := 1888
def INTERNAL_PAGE_WIDTH : Nat := 1404

/-- `np.frombuffer(uncompressed, dtype=np.uint16)`: consecutive byte pairs read as
little-endian 16-bit values.  (The caller checks that the byte count is even, as
numpy does.) -/
def u16FromPairs : List Nat → List Nat
  | a :: b :: rest => (a + 256 * b) :: u16FromPairs rest
  | _ => []

/-- `np.rot90(bitmap, -1)` (rotate 90 degrees clockwise) of a `rows × cols`
row-major matrix; the result is `cols × rows` row-major with
`result[i][j] = bitmap[rows - 1 - j][i]`. -/
def rot90cw (rows cols : Nat) (d : List Nat) : List Nat :=
  (List.range (cols * rows)).map fun idx =>
    d.getD ((rows - 1 - idx % rows) * cols + idx / rows) 0

/-- `np.delete(bitmap, slice(-16, None), axis=0)` generalised: drop the last `k`
rows of a `rows × cols` row-major matrix. -/
def deleteBottomRows (rows cols k : Nat) (d : List Nat) : List Nat :=
  d.take ((rows - k) * cols)

/-- One masked assignment `bitmap[bitmap == code] = v` (the stored value is already
reduced to the array's element width by the caller). -/
def maskAssign (code v : Nat) (d : List Nat) : List Nat :=
  d.map fun x => if x = code then v else x

/-- `FlateDecoder.decode` (decoder.py lines 44-89), starting from the
zlib-decompressed payload: `uncompressed` stands for `zlib.decompress(data)` (zlib
itself is an external library and is not re-modelled; every claim here is about the
processing after decompression).  `np.frombuffer` raises `ValueError` on an odd byte
count and `np.reshape` raises `ValueError` when the element count is not
`1404 * 1888`. -/
def flateDecode (uncompressed : List Nat) (pageWidth pageHeight : Nat)
    (palette : Option ColorPalette) :
    Except PyErr (List Nat × (Nat × Nat) × Nat) :=
  if uncompressed.length % 2 ≠ 0 then .error .valueError
  else
    let bitmap := u16FromPairs uncompressed
    if bitmap.length ≠ INTERNAL_PAGE_WIDTH * INTERNAL_PAGE_HEIGHT then .error .valueError
    else
      -- np.reshape(bitmap, (INTERNAL_PAGE_WIDTH, INTERNAL_PAGE_HEIGHT)):
      -- 1404 rows of 1888 columns, then rotate clockwise and drop 16 rows.
      let bitmap := rot90cw INTERNAL_PAGE_WIDTH INTERNAL_PAGE_HEIGHT bitmap
      let bitmap := deleteBottomRows INTERNAL_PAGE_HEIGHT INTERNAL_PAGE_WIDTH 16 bitmap
      let palette := palette.getD DEFAULT_COLORPALETTE
      match palette.mode with
      | .rgb =>
        -- astype('>u4') then the four masked stores of ((color << 8) | 0xff)
        let store := fun (c : Nat) => ((c <<< 8) ||| 0xff) % 2 ^ 32
        let bitmap := maskAssign COLORCODE_BLACK (store palette.black) bitmap
        let bitmap := maskAssign COLORCODE_DARK_GRAY (store palette.darkgray) bitmap
        let bitmap := maskAssign COLORCODE_GRAY (store palette.gray) bitmap
        let bitmap := maskAssign COLORCODE_BACKGROUND (store palette.white) bitmap
        -- tobytes() of a big-endian 32-bit array
        .ok (List.flatten (bitmap.map fun v =>
              [v / 2 ^ 24 % 256, v / 2 ^ 16 % 256, v / 2 ^ 8 % 256, v % 256]),
             (pageWidth, pageHeight), 32)
      | .grayscale =>
        -- the four masked stores into the uint16 array, then astype(np.uint8)
        let bitmap := maskAssign COLORCODE_BLACK (palette.black % 2 ^ 16) bitmap
        let bitmap := maskAssign COLORCODE_DARK_GRAY (palette.darkgray % 2 ^ 16) bitmap
        let bitmap := maskAssign COLORCODE_GRAY (palette.gray % 2 ^ 16) bitmap
        let bitmap := maskAssign COLORCODE_BACKGROUND (palette.white % 2 ^ 16) bitmap
        .ok (bitmap.map (· % 2 ^ 8), (pageWidth, pageHeight), 8)

end Flate

/-! ### Insertion-ordered Python dicts -/

section Dict

variable {α : Type}

/-- Python `d.get(key)` over an insertion-ordered association list. -/
def dictGet : List (String × α) → String → Option α
  | [], _ => none
  | (k', v) :: rest, k => if k' = k then some v else dictGet rest k

/-- Python `d[key] = value`: an existing key keeps its position, a fresh key is
appended at the end of the insertion order. -/
def dictSet : List (String × α) → String → α → List (String × α)
  | [], k, v => [(k, v)]
  | (k', v') :: rest, k, v =>
    if k' = k then (k, v) :: rest else (k', v') :: dictSet rest k v

/-- Python `d.pop(key)`: removes the key, preserving the order of the rest. -/
def dictPop : List (String × α) → String → List (String × α)
  | [], _ => []
  | (k', v') :: rest, k => if k' = k then rest else (k', v') :: dictPop rest k

/-- Python `key in d`. -/
def dictHas (d : List (String × α)) (k : String) : Bool :=
  (dictGet d k).isSome

end Dict

/-- A metadata parameter value: a scalar string, or the ordered list a duplicated
key is promoted to (`parser.py` lines 512-524). -/
inductive ParamValue where
  | str (s : String)
  | list (l : List String)
  deriving DecidableEq

/-- A parsed metadata block: an insertion-ordered dict from key to value. -/
abbrev Params := List (String × ParamValue)

/-- Python truthiness of a parameter value: the empty string and the empty list are
falsy. -/
def ParamValue.truthy : ParamValue → Bool
  | .str s => !(s = "")
  | .list l => !l.isEmpty

namespace Tokenizer

/-- The character class `[^:<>]` of the KEY capture group in the pattern
`<([^:<>]+):(.*?)>` (parser.py line 506). -/
def isKeyChar (c : Char) : Bool := c ≠ ':' && c ≠ '<' && c ≠ '>'

/-- Attempts to match the regex `<([^:<>]+):(.*?)>` at the head of `cs`:
a `<`, a non-empty greedy run of key characters, a `:`, then the shortest value
(each character matched by `.`, which excludes a newline) followed by `>`.
Returns the two capture groups and the remaining input. -/
def matchTokenAt (cs : List Char) : Option (String × String × List Char) :=
  match cs with
  | '<' :: rest =>
    let key := rest.takeWhile isKeyChar
    if key.isEmpty then none
    else
      match rest.drop key.length with
      | ':' :: afterColon =>
        let value := afterColon.takeWhile (fun c => c ≠ '>')
        if value.contains '\n' then none
        else
          match afterColon.drop value.length with
          | '>' :: rest2 => some (String.mk key, String.mk value, rest2)
          | _ => none
      | _ => none
  | _ => none

/-- `re.finditer` of the token pattern: scan left to right, taking the leftmost
match at each point and resuming after it.  The fuel (initially the input length)
only bounds the recursion; every match consumes at least the opening `<`, so the
fuel never runs out before the input does. -/
def findTokensAux (fuel : Nat) (cs : List Char) : List (String × String) :=
  match fuel with
  | 0 => []
  | fuel + 1 =>
    match cs with
    | [] => []
    | c :: rest =>
      match matchTokenAt (c :: rest) with
      | some (k, v, rest2) => (k, v) :: findTokensAux fuel rest2
      | none => findTokensAux fuel rest

def findTokens (cs : List Char) : List (String × String) :=
  findTokensAux cs.length cs

/-- The per-match body of `SupernoteParser._extract_parameters`
(parser.py lines 509-524): Python's `if params.get(key):` is a truthiness test, the
promotion does `params.pop(key)` followed by a fresh assignment (which re-inserts
the key at the end of the dict order), and appending to an existing list mutates it
in place. -/
def insertParam (ps : Params) (k v : String) : Params :=
  match dictGet ps k with
  | some old =>
    if old.truthy then
      match old with
      | .list l => dictSet ps k (.list (l ++ [v]))
      | .str s => dictSet (dictPop ps k) k (.list [s, v])
    else dictSet ps k (.str v)
  | none => dictSet ps k (.str v)

/-- `SupernoteParser._extract_parameters` (parser.py lines 490-525).  The function
is total: when no token matches it simply returns the empty dict. -/
def extractParameters (metadata : String) : Params :=
  (findTokens metadata.toList).foldl (fun ps kv => insertParam ps kv.1 kv.2) []

end Tokenizer

/-- The exception classes defined by `supernotelib/exceptions.py` (lines 17-31);
this is the complete list in the source. -/
def supernoteExceptionClasses : List String :=
  ["SupernoteLibException", "ParserException", "UnsupportedFileFormat",
   "DecoderException", "UnknownDecodeProtocol"]

namespace Converter

def SPECIAL_WHITE_STYLE_BLOCK_SIZE : Nat := 0x140e

/-- The `all_blank` computation of `ImageConverter._convert_layered_page`
(converter.py lines 96-97): `layer_name == 'BGLAYER' and page_style is not None and
page_style == 'style_white' and binary_size == 0x140e`.  `pageStyle` is the page's
`PAGESTYLE` value (`None` when the key is absent). -/
def allBlankFlag (layerName : String) (pageStyle : Option String) (binarySize : Nat) : Bool :=
  layerName = "BGLAYER" && pageStyle.isSome && pageStyle = some "style_white" &&
    binarySize = SPECIAL_WHITE_STYLE_BLOCK_SIZE

/-- One element of the JSON array held by `LAYERINFO` after the `#` → `:`
substitution; absent JSON fields are `none` (Python `dict.get` gives `None`). -/
structure LayerInfoEntry where
  layerId : Option Int
  isBackgroundLayer : Option Bool
  isVisible : Option Bool
  deriving DecidableEq

/-- The visibility dict built by `_get_layer_visibility`: layer name to the raw
`isVisible` field (which itself can be `None`). -/
abbrev Visibility := List (String × Option Bool)

/-- Python `str(layer_id)` as used in `'LAYER' + str(layer_id)`. -/
def pyStrOfOptInt : Option Int → String
  | none => "None"
  | some n => toString n

/-- The entry loop of `ImageConverter._get_layer_visibility`
(converter.py lines 170-180): `is_bg_layer` is used under Python truthiness
(`None` is falsy), `is_main_layer = (layer_id == 0) and (not is_bg_layer)`. -/
def layerVisibilityRaw (entries : List LayerInfoEntry) : Visibility :=
  entries.foldl
    (fun vis e =>
      let isBgLayer := e.isBackgroundLayer.getD false
      let isMainLayer := (e.layerId = some 0) && !isBgLayer
      if isBgLayer then dictSet vis "BGLAYER" e.isVisible
      else if isMainLayer then dictSet vis "MAINLAYER" e.isVisible
      else dictSet vis ("LAYER" ++ pyStrOfOptInt e.layerId) e.isVisible)
    []

/-- `ImageConverter._get_layer_visibility` (converter.py lines 164-184).  `info` is
the page's parsed `LAYERINFO` array, `none` when `page.get_layer_info()` returned
`None` (key absent or the literal string `'none'`, fileformat.py lines 270-274).
Note the early return on line 167-168: the `MAINLAYER` default on lines 182-183 is
applied only when `LAYERINFO` is present. -/
def getLayerVisibility (info : Option (List LayerInfoEntry)) : Visibility :=
  match info with
  | none => []
  | some entries =>
    let visibility := layerVisibilityRaw entries
    match dictGet visibility "MAINLAYER" with
    | none => dictSet visibility "MAINLAYER" (some true)
    | some none => dictSet visibility "MAINLAYER" (some true)
    | some (some _) => visibility

/-- The per-layer visibility test of `ImageConverter._flatten_layers`
(converter.py lines 121 and 126-127) when no visibility overlay is given:
`is_visible = visibility.get(name); if not is_visible: continue` — the layer is
composited only when the stored value is truthy. -/
def layerComposited (visibility : Visibility) (name : String) : Bool :=
  match dictGet visibility name with
  | some (some b) => b
  | _ => false

end Converter

/-! ### Byte streams, Python `int()` and the structural parser -/

/-- `fobj.seek(pos)` followed by `fobj.read(len)`: a read past end-of-file returns
the available bytes (possibly none), as in Python. -/
def readAt (s : List Nat) (pos len : Nat) : List Nat :=
  (s.drop pos).take len

/-- `int.from_bytes(bs, 'little')` (`int.from_bytes(b'') = 0`). -/
def intFromBytesLE (bs : List Nat) : Nat :=
  bs.foldr (fun b acc => b + 256 * acc) 0

/-- `bytes.decode()` for the ASCII range, the only range the modelled inputs use;
a byte outside it raises `UnicodeDecodeError` (a multi-byte UTF-8 sequence is never
well-formed metadata, so collapsing it into the failure case loses nothing). -/
def decodeAscii (bs : List Nat) : Except PyErr String :=
  if bs.all (· < 0x80) then .ok (String.mk (bs.map Char.ofNat))
  else .error .unicodeDecodeError

def digitsToNat (ds : List Char) : Nat :=
  ds.foldl (fun a c => 10 * a + (c.toNat - '0'.toNat)) 0

/-- Python `int(str)`: optional surrounding whitespace, an optional sign, then at
least one digit; anything else raises `ValueError`. -/
def pyInt (t : String) : Except PyErr Int :=
  let cs := ((t.toList.dropWhile (· = ' ')).reverse.dropWhile (· = ' ')).reverse
  match cs with
  | '-' :: ds =>
    if !ds.isEmpty && ds.all (·.isDigit) then .ok (-(digitsToNat ds : Int))
    else .error .valueError
  | '+' :: ds =>
    if !ds.isEmpty && ds.all (·.isDigit) then .ok (digitsToNat ds)
    else .error .valueError
  | ds =>
    if !ds.isEmpty && ds.all (·.isDigit) then .ok (digitsToNat ds)
    else .error .valueError

/-- `int(x)` for a parameter value: `int` of a list raises `TypeError`. -/
def pyIntV : ParamValue → Except PyErr Int
  | .str t => pyInt t
  | .list _ => .error .typeError

/-- `int(d.get(key))`: `int(None)` raises `TypeError` (used by
`SupernoteParser._get_header_address`, parser.py line 426). -/
def pyIntObj : Option ParamValue → Except PyErr Int
  | none => .error .typeError
  | some v => pyIntV v

/-- Python `d[key]`: raises `KeyError` when the key is absent. -/
def dictGetItem (ps : Params) (k : String) : Except PyErr ParamValue :=
  match dictGet ps k with
  | none => .error .keyError
  | some v => .ok v

/-- `SupernoteParser._parse_metadata_block` (parser.py lines 465-488): address 0
yields the empty dict; otherwise read a 4-byte little-endian length, read that many
bytes, decode and tokenize them.  A negative address makes `seek` fail. -/
def parseMetadataBlock (s : List Nat) (address : Int) : Except PyErr Params :=
  if address = 0 then .ok []
  else if address < 0 then .error .osError
  else
    let a := address.toNat
    let blockLength := intFromBytesLE (readAt s a 4)
    match decodeAscii (readAt s (a + 4) blockLength) with
    | .error e => .error e
    | .ok contents => .ok (Tokenizer.extractParameters contents)

/-- `parser._get_content_at_address` (parser.py lines 165-171): `None` for address
0, otherwise the length-prefixed payload. -/
def getContentAtAddress (s : List Nat) (address : Int) :
    Except PyErr (Option (List Nat)) :=
  if address = 0 then .ok none
  else if address < 0 then .error .osError
  else
    let a := address.toNat
    let blockLength := intFromBytesLE (readAt s a 4)
    .ok (some (readAt s (a + 4) blockLength))

/-- `SupernoteXParser.SN_SIGNATURES` (parser.py lines 532-544). -/
def SN_SIGNATURES_X : List String :=
  ["SN_FILE_VER_20200001", "SN_FILE_VER_20200005", "SN_FILE_VER_20200006",
   "SN_FILE_VER_20200007", "SN_FILE_VER_20200008", "SN_FILE_VER_20210009",
   "SN_FILE_VER_20210010", "SN_FILE_VER_20220011", "SN_FILE_VER_20220013",
   "SN_FILE_VER_20230014", "SN_FILE_VER_20230015"]

def SN_SIGNATURE_OFFSET_X : Nat := 4

/-- The loop of `SupernoteParser._find_matching_signature` (parser.py lines
386-395): each candidate is read at the signature offset and compared;
`UnicodeDecodeError` moves on to the next candidate. -/
def findMatchingSignatureAux (s : List Nat) : List String → Option String
  | [] => none
  | sig :: sigs =>
    match decodeAscii (readAt s SN_SIGNATURE_OFFSET_X sig.length) with
    | .error _ => findMatchingSignatureAux s sigs
    | .ok got => if got = sig then some sig else findMatchingSignatureAux s sigs

def findMatchingSignatureX (s : List Nat) : Option String :=
  findMatchingSignatureAux s SN_SIGNATURES_X

/-- Python `str.startswith(pre)`, computed on the character lists (the string-level
primitive does not reduce inside the kernel). -/
def strStartsWith (t pre : String) : Bool :=
  pre.toList.isPrefixOf t.toList

/-- Python `str.split(',')`: split on every comma, keeping empty fields. -/
def pySplitCommaAux : List Char → List Char → List String
  | [], acc => [String.mk acc.reverse]
  | c :: rest, acc =>
    if c = ',' then String.mk acc.reverse :: pySplitCommaAux rest []
    else pySplitCommaAux rest (c :: acc)

def pySplitComma (t : String) : List String :=
  pySplitCommaAux t.toList []

/-- `re.match(r'SN_FILE_VER_\d{8}', t)`: a prefix match. -/
def matchesXSignaturePattern (t : String) : Bool :=
  strStartsWith t "SN_FILE_VER_" &&
    ((t.toList.drop 12).take 8).length = 8 &&
    ((t.toList.drop 12).take 8).all (·.isDigit)

/-- `SupernoteXParser._check_signature_compatible` (parser.py lines 397-408): reads
`len(latest_signature)` bytes from offset 0 and prefix-matches the pattern; any
failure yields `False`. -/
def checkSignatureCompatibleX (s : List Nat) : Bool :=
  match decodeAscii (readAt s 0 20) with
  | .error _ => false
  | .ok t => matchesXSignaturePattern t

/-- The signature-check policy of `parse` / `load` (`'strict'` / `'loose'`). -/
inductive Policy where
  | strict
  | loose
  deriving DecidableEq

/-- The address-collection loops of `_get_keyword_addresses`,
`_get_title_addresses` and `_get_link_addresses` (parser.py lines 571-605): each
footer value under a matching key is converted with `int`, list values
element-wise. -/
def collectAddressesGo : List (String × ParamValue) → Except PyErr (List Int)
  | [] => .ok []
  | (_, ParamValue.list vs) :: rest => do
    let xs ← vs.mapM pyInt
    let ys ← collectAddressesGo rest
    .ok (xs ++ ys)
  | (_, ParamValue.str v) :: rest => do
    let x ← pyInt v
    let ys ← collectAddressesGo rest
    .ok (x :: ys)

def collectAddresses (ps : Params) (pre : String) : Except PyErr (List Int) :=
  collectAddressesGo (ps.filter fun kv => strStartsWith kv.1 pre)

/-- The keyword workaround of `SupernoteXParser._parse_footer_block` (parser.py
lines 553-557): re-read the content at `KEYWORDSITE` and store its decoded text
under `KEYWORD`.  When the address is 0 the content is `None` and
`content.decode()` raises `AttributeError`. -/
def keywordWorkaround (s : List Nat) (kw : Params) : Except PyErr Params := do
  let v ← dictGetItem kw "KEYWORDSITE"
  let address ← pyIntV v
  match ← getContentAtAddress s address with
  | none => .error .attributeError
  | some bs => do
    let t ← decodeAscii bs
    .ok (dictSet kw "KEYWORD" (.str t))

/-- An X-series footer after `_parse_footer_block`: the tokenized parameters plus
the keyword/title/link blocks attached under the reserved keys (an empty list
models an absent reserved key, which is exactly when the source attaches none). -/
structure Footer where
  params : Params
  keywords : List Params
  titles : List Params
  links : List Params
  deriving DecidableEq

/-- `SupernoteXParser._parse_footer_block` (parser.py lines 547-569).  Attaching a
non-empty link list executes `footer[fileformat.KEY_LINKS] = links`, and
`fileformat.py` defines no `KEY_LINKS`, so that line raises `AttributeError`. -/
def parseFooterBlockX (s : List Nat) (address : Int) : Except PyErr Footer := do
  let footer ← parseMetadataBlock s address
  let keywordAddresses ← collectAddresses footer "KEYWORD_"
  let keywords ← keywordAddresses.mapM (parseMetadataBlock s)
  let keywords ←
    if keywords.isEmpty then pure keywords else keywords.mapM (keywordWorkaround s)
  let titleAddresses ← collectAddresses footer "TITLE_"
  let titles ← titleAddresses.mapM (parseMetadataBlock s)
  let linkAddresses ← collectAddresses footer "LINK"
  let links ← linkAddresses.mapM (parseMetadataBlock s)
  if links.isEmpty then
    .ok { params := footer, keywords := keywords, titles := titles, links := [] }
  else .error .attributeError

/-- `fileformat.SupernoteXParser.LAYER_KEYS`. -/
def LAYER_KEYS : List String := ["MAINLAYER", "LAYER1", "LAYER2", "LAYER3", "BGLAYER"]

/-- A parsed page block: its parameters, and the layer blocks stored under
`KEY_LAYERS` (`none` models a legacy page, which never gets the key). -/
structure PageInfo where
  params : Params
  layers : Option (List Params)
  deriving DecidableEq

/-- `SupernoteXParser._parse_page_block` (parser.py lines 627-646) with
`_get_layer_addresses` (lines 648-663): the page keys among `LAYER_KEYS`, in page
order, are converted with `int` and each layer block is parsed. -/
def parsePageBlockX (s : List Nat) (address : Int) : Except PyErr PageInfo := do
  let pageInfo ← parseMetadataBlock s address
  let layerEntries := pageInfo.filter fun kv => LAYER_KEYS.contains kv.1
  let layerAddresses ← layerEntries.mapM (fun kv => pyIntV kv.2)
  let layers ← layerAddresses.mapM (parseMetadataBlock s)
  .ok { params := pageInfo, layers := some layers }

/-- The metadata tree produced by `parse_stream`
(`fileformat.SupernoteMetadata`). -/
structure Meta where
  filetype : String
  signature : String
  header : Params
  footer : Footer
  pages : List PageInfo
  deriving DecidableEq

/-- The signature-check step of `parse_stream` (parser.py lines 342-348): accept a
matching signature, or in loose policy a pattern-compatible one (treated as the
latest known signature); otherwise `UnsupportedFileFormat`. -/
def resolveSignatureX (s : List Nat) (policy : Policy) : Except PyErr String :=
  match findMatchingSignatureX s with
  | some sig => .ok sig
  | none =>
    if policy ≠ Policy.loose || !checkSignatureCompatibleX s then
      .error .unsupportedFileFormat
    else .ok (SN_SIGNATURES_X.getLastD "")

/-- `SupernoteXParser.parse_stream` (parser.py lines 320-366 with the X-series
overrides): file type, signature check with the strict/loose policy, footer address
from the last four bytes, footer/header/page blocks.
`_get_header_address` is `int(footer.get('FILE_FEATURE'))` (line 426) and
`_get_page_addresses` maps `int` over the footer keys starting with `PAGE`
(lines 610-625). -/
def parseStreamX (s : List Nat) (policy : Policy) : Except PyErr Meta := do
  let filetype ← decodeAscii (readAt s 0 4)
  let signature ← resolveSignatureX s policy
  if s.length < 4 then Except.error PyErr.osError
  else do
    let footer ← parseFooterBlockX s (intFromBytesLE (readAt s (s.length - 4) 4) : Int)
    let headerAddress ← pyIntObj (dictGet footer.params "FILE_FEATURE")
    let header ← parseMetadataBlock s headerAddress
    let pageAddresses ←
      (footer.params.filter fun kv => strStartsWith kv.1 "PAGE").mapM (fun kv => pyIntV kv.2)
    let pages ← pageAddresses.mapM (parsePageBlockX s)
    Except.ok
      { filetype := filetype, signature := signature, header := header,
        footer := footer, pages := pages }

/-! ### The Notebook model and `parser.load` -/

/-- The methods defined by `fileformat.Notebook` (fileformat.py lines 124-165);
this is the complete list in the source — in particular there is no `get_links`. -/
def notebookMethods : List String :=
  ["get_metadata", "get_signature", "get_total_pages", "get_page", "get_cover",
   "get_keywords", "get_titles"]

/-- The methods defined by `fileformat.Page` (fileformat.py lines 218-287); note
that `set_recogn_file` and `set_recogn_text` are absent. -/
def pageMethods : List String :=
  ["set_content", "get_content", "is_layer_supported", "get_layers", "get_layer",
   "get_protocol", "get_style", "get_style_hash", "get_layer_info",
   "get_layer_order", "set_totalpath", "get_totalpath"]

/-- `fileformat.Keyword.__init__` (fileformat.py lines 178-182):
`int(metadata['KEYWORDPAGE']) - 1` and
`int(metadata['KEYWORDRECT'].split(',')[1])`; a missing key raises `KeyError`, a
malformed number `ValueError`, a one-field rect `IndexError`, `split` on a list
value `AttributeError`. -/
def keywordInitOk (k : Params) : Except PyErr Unit := do
  let v ← dictGetItem k "KEYWORDPAGE"
  let _ ← pyIntV v
  let r ← dictGetItem k "KEYWORDRECT"
  match r with
  | .list _ => .error .attributeError
  | .str t =>
    match (pySplitComma t).get? 1 with
    | none => .error .indexError
    | some p => do
      let _ ← pyInt p
      .ok ()

/-- `fileformat.Title.__init__` (fileformat.py lines 197-201), analogous to
`Keyword` with `TITLERECTORI`. -/
def titleInitOk (t : Params) : Except PyErr Unit := do
  let r ← dictGetItem t "TITLERECTORI"
  match r with
  | .list _ => .error .attributeError
  | .str u =>
    match (pySplitComma u).get? 1 with
    | none => .error .indexError
    | some p => do
      let _ ← pyInt p
      .ok ()

/-- `fileformat.Page.__init__` (fileformat.py lines 219-227): when the page has a
`__layers__` entry, `for i in range(5)` indexes the first five layer dicts and
raises `IndexError` when fewer are present. -/
def pageInitOk (p : PageInfo) : Except PyErr Unit :=
  match p.layers with
  | none => .ok ()
  | some ls => if 5 ≤ ls.length then .ok () else .error .indexError

/-- `fileformat.Notebook.__init__` (fileformat.py lines 125-142): keyword, title
and page objects are built eagerly, so their constructor failures surface here. -/
def notebookInitOk (md : Meta) : Except PyErr Unit := do
  md.footer.keywords.forM keywordInitOk
  md.footer.titles.forM titleInitOk
  md.pages.forM pageInitOk

/-- Python slice `k[a:b]`. -/
def sliceStr (t : String) (a b : Nat) : String :=
  String.mk ((t.toList.drop a).take (b - a))

/-- The loop of `parser._get_page_number_from_footer_property` (parser.py lines
279-288): for each footer key with the prefix, `int(k[6:10]) - 1` is appended, once
per element for a list value. -/
def pageNumbersGo : List (String × ParamValue) → Except PyErr (List Int)
  | [] => .ok []
  | (k, v) :: rest => do
    let n ← pyInt (sliceStr k 6 10)
    let ns ← pageNumbersGo rest
    match v with
    | .list l => .ok (List.replicate l.length (n - 1) ++ ns)
    | .str _ => .ok ((n - 1) :: ns)

def pageNumbersFromFooterProperty (ps : Params) (pre : String) :
    Except PyErr (List Int) :=
  pageNumbersGo (ps.filter fun kv => strStartsWith kv.1 pre)

/-- `parser._get_cover_address` (parser.py lines 173-187). -/
def coverAddressOf (footer : Params) : Except PyErr Int :=
  match dictGet footer "COVER_2" with
  | some v => pyIntV v
  | none =>
    match dictGet footer "COVER_1" with
    | some v => pyIntV v
    | none => .ok 0

/-- The title loop of `parser.load` (parser.py lines 100-105): per title, resolve
`TITLEBITMAP`, read its content and index `page_numbers[i]`. -/
def titlesLoop (s : List Nat) (pageNumbers : List Int) :
    Nat → List Params → Except PyErr Unit
  | _, [] => .ok ()
  | i, t :: rest => do
    let v ← dictGetItem t "TITLEBITMAP"
    let address ← pyIntV v
    let _ ← getContentAtAddress s address
    match pageNumbers.get? i with
    | none => .error .indexError
    | some _ => titlesLoop s pageNumbers (i + 1) rest

/-- Everything `parser.load` (parser.py lines 85-107) does before the
`note.get_links()` call on line 108: `Notebook(metadata)`, the cover read, the
keyword loop, the title loop, and the link page-number scan on line 107. -/
def loadUpToLinks (md : Meta) (s : List Nat) : Except PyErr Unit := do
  notebookInitOk md
  let coverAddress ← coverAddressOf md.footer.params
  let _ ← if 0 < coverAddress then getContentAtAddress s coverAddress else pure none
  md.footer.keywords.forM (fun k => do
    let v ← dictGetItem k "KEYWORDSITE"
    let address ← pyIntV v
    let _ ← getContentAtAddress s address
    pure ())
  let titlePageNumbers ← pageNumbersFromFooterProperty md.footer.params "TITLE_"
  titlesLoop s titlePageNumbers 0 md.footer.titles
  let _ ← pageNumbersFromFooterProperty md.footer.params "LINK"
  pure ()

/-- The attribute lookup `note.get_links()` on parser.py line 108: `Notebook`
defines no `get_links` method, so the lookup raises `AttributeError`.  (The `.ok`
branch, which the method table makes unreachable, stands for whatever a `get_links`
method would return.) -/
def notebookGetLinks : Except PyErr (List Params) :=
  if notebookMethods.contains "get_links" then .ok [] else .error .attributeError

/-- `parser._get_bitmap_address` (parser.py lines 219-235): five
`LAYERBITMAP` lookups (absent → 0) for a layered page, `int(page['DATA'])`
otherwise. -/
def getBitmapAddresses (p : PageInfo) : Except PyErr (List Int) :=
  match p.layers with
  | some ls =>
    if 5 ≤ ls.length then
      (List.range 5).mapM (fun l =>
        match dictGet (ls.getD l []) "LAYERBITMAP" with
        | none => Except.ok (0 : Int)
        | some v => pyIntV v)
    else .error .indexError
  | none => do
    let v ← dictGetItem p.params "DATA"
    let a ← pyIntV v
    .ok [a]

/-- The per-page body of `parser.load`'s page loop (parser.py lines 114-137);
unreachable in this program because `note.get_links()` raises first.  Storing a
recognition payload would call the missing `Page.set_recogn_file` /
`Page.set_recogn_text` methods. -/
def loadPageStep (s : List Nat) (p : PageInfo) : Except PyErr Unit := do
  let addresses ← getBitmapAddresses p
  let _ ← addresses.mapM (getContentAtAddress s)
  let totalpathAddress ←
    if dictHas p.params "TOTALPATH" then do
      let v ← dictGetItem p.params "TOTALPATH"
      pyIntV v
    else pure 0
  let _ ← if 0 < totalpathAddress then getContentAtAddress s totalpathAddress else pure none
  let recognFileAddress ←
    if dictHas p.params "RECOGNFILE" then do
      let v ← dictGetItem p.params "RECOGNFILE"
      pyIntV v
    else pure 0
  if 0 < recognFileAddress && !pageMethods.contains "set_recogn_file" then
    .error .attributeError
  else do
    let recognTextAddress ←
      if dictHas p.params "RECOGNTEXT" then do
        let v ← dictGetItem p.params "RECOGNTEXT"
        pyIntV v
      else pure 0
    if 0 < recognTextAddress && !pageMethods.contains "set_recogn_text" then
      .error .attributeError
    else pure ()

/-- `parser.load` (parser.py lines 64-138) given already-parsed metadata: the
pre-link stage, the `note.get_links()` lookup, the link loop and the page loop.
The returned `Unit` stands for the `Notebook` object `load` would return. -/
def load (md : Meta) (s : List Nat) : Except PyErr Unit := do
  loadUpToLinks md s
  let links ← notebookGetLinks
  let _ ← links.mapM (fun link => do
    let v ← dictGetItem link "LINKBITMAP"
    let _ ← pyIntV v
    pure ())
  md.pages.forM (loadPageStep s)

/-- `fileformat.Notebook.get_page` (fileformat.py lines 153-156). -/
def notebookGetPage (pages : List PageInfo) (number : Int) :
    Except PyErr PageInfo :=
  if number < 0 || (pages.length : Int) ≤ number then .error .indexError
  else
    match pages.get? number.toNat with
    | some p => .ok p
    | none => .error .indexError

/-- `Except.isOk` spelled out for the statements below. -/
def isOkE {ε α : Type} : Except ε α → Bool
  | .ok _ => true
  | .error _ => false

/-! ## Theorems

Helper lemmas first, then one theorem per claim (with its witness or
counterexample where applicable). -/

namespace RattaRle

theorem shiftLeft_succ_pos (n i : Nat) : 0 < (n + 1) <<< i := by
  simp [Nat.shiftLeft_eq]

theorem createColorBytearray_error {mode : ColorMode} {cmap : List (Nat × Nat)}
    {c l : Nat} {e : PyErr} (h : createColorBytearray mode cmap c l = .error e) :
    e = .typeError ∨ e = .valueError := by
  cases mode
  · simp only [createColorBytearray] at h
    cases hl : cmap.lookup c <;> simp only [hl] at h
    · exact Or.inl (by injection h with h'; exact h'.symm)
    · split at h
      · exact absurd h (by simp)
      · exact Or.inr (by injection h with h'; exact h'.symm)
  · simp only [createColorBytearray] at h
    cases hl : cmap.lookup c <;> simp only [hl, getRgb] at h
    · exact Or.inl (by injection h with h'; exact h'.symm)
    · exact absurd h (by simp)

theorem emitRuns_error {mode : ColorMode} {cmap : List (Nat × Nat)} :
    ∀ (runs : List (Nat × Nat)) (acc : List Nat) (e : PyErr),
      emitRuns mode cmap acc runs = .error e → e = .typeError ∨ e = .valueError
  | [], acc, e => by intro h; simp [emitRuns] at h
  | (c, l) :: rest, acc, e => by
    intro h
    simp only [emitRuns] at h
    cases hcb : createColorBytearray mode cmap c l with
    | error e' =>
      rw [hcb] at h
      injection h with h'
      exact h' ▸ createColorBytearray_error hcb
    | ok bs =>
      rw [hcb] at h
      exact emitRuns_error rest (acc ++ bs) e h

theorem rleTail_error {mode : ColorMode} {cmap : List (Nat × Nat)}
    {expected : Nat} {holder : Option (Nat × Nat)} {acc : List Nat} {e : PyErr}
    (h : rleTail mode cmap expected holder acc = .error e) :
    e = .typeError ∨ e = .valueError := by
  cases holder with
  | none => simp [rleTail] at h
  | some p =>
    obtain ⟨c, l⟩ := p
    simp only [rleTail] at h
    split at h
    · cases hcb : createColorBytearray mode cmap c (adjustTailLength l acc.length expected) with
      | error e' =>
        rw [hcb] at h
        injection h with h'
        exact h' ▸ createColorBytearray_error hcb
      | ok bs => rw [hcb] at h; exact absurd h (by simp)
    · exact absurd h (by simp)

theorem rleLoop_error {mode : ColorMode} {cmap : List (Nat × Nat)}
    {allBlank : Bool} {expected : Nat} :
    ∀ (data : List Nat) (holder : Option (Nat × Nat)) (acc : List Nat) (e : PyErr),
      rleLoop mode cmap allBlank expected data holder acc = .error e →
      e = .typeError ∨ e = .valueError
  | [], holder, acc, e => by
    intro h; exact rleTail_error (h := h)
  | [_], holder, acc, e => by
    intro h; exact rleTail_error (h := h)
  | c :: l :: rest, holder, acc, e => by
    intro h
    simp only [rleLoop] at h
    cases hr : emitRuns mode cmap acc (rleStep allBlank holder c l).1 with
    | error e' =>
      rw [hr] at h
      injection h with h'
      exact h' ▸ emitRuns_error _ _ _ hr
    | ok acc' =>
      rw [hr] at h
      exact rleLoop_error rest _ acc' e h

/-- **C1** (RLE held-pair extension): when a pair `(prevColor, prevLength)` is held
(bit 7 of `prevLength` set, `prevLength ≠ 0xFF`) and the next pair
`(colorNext, lengthNext)` arrives, then if `colorNext = prevColor` the decoder
emits one combined run of `prevColor` with length
`1 + lengthNext + (((prevLength &&& 0x7F) + 1) <<< 7)`; otherwise it first emits
the held run with length `((prevLength &&& 0x7F) + 1) <<< 7` and then processes
`(colorNext, lengthNext)` as a fresh pair (the decode loop restarted on the
remaining stream with no held pair), which may itself be held, special or
ordinary. -/
theorem rle_held_pair_extension
    (mode : ColorMode) (cmap : List (Nat × Nat)) (allBlank : Bool) (expected : Nat)
    (prevColor prevLength colorNext lengthNext : Nat) (rest acc : List Nat)
    (hHeld : prevLength &&& 0x80 ≠ 0) (hNotSpecial : prevLength ≠ 0xff) :
    rleLoop mode cmap allBlank expected
        (prevColor :: prevLength :: colorNext :: lengthNext :: rest) none acc =
      if colorNext = prevColor then
        match createColorBytearray mode cmap prevColor
            (1 + lengthNext + (((prevLength &&& 0x7f) + 1) <<< 7)) with
        | .error e => .error e
        | .ok bs => rleLoop mode cmap allBlank expected rest none (acc ++ bs)
      else
        match createColorBytearray mode cmap prevColor
            (((prevLength &&& 0x7f) + 1) <<< 7) with
        | .error e => .error e
        | .ok bs =>
          rleLoop mode cmap allBlank expected
            (colorNext :: lengthNext :: rest) none (acc ++ bs) := by
  have h1 : rleLoop mode cmap allBlank expected
      (prevColor :: prevLength :: colorNext :: lengthNext :: rest) none acc =
      rleLoop mode cmap allBlank expected (colorNext :: lengthNext :: rest)
        (some (prevColor, prevLength)) acc := by
    simp [rleLoop, rleStep, emitRuns, SPECIAL_LENGTH_MARKER, hNotSpecial, hHeld]
  rw [h1]
  by_cases hc : colorNext = prevColor
  · rw [if_pos hc]
    subst hc
    cases hcb : createColorBytearray mode cmap colorNext
        (1 + lengthNext + (((prevLength &&& 0x7f) + 1) <<< 7)) <;>
      simp [rleLoop, rleStep, emitRuns, hcb]
  · rw [if_neg hc]
    by_cases hsp : lengthNext = 0xff
    · cases hcb : createColorBytearray mode cmap prevColor
          (((prevLength &&& 0x7f) + 1) <<< 7) <;>
        simp [rleLoop, rleStep, emitRuns, hc, hsp, SPECIAL_LENGTH_MARKER, hcb]
    · by_cases hb : lengthNext &&& 0x80 ≠ 0
      · cases hcb : createColorBytearray mode cmap prevColor
            (((prevLength &&& 0x7f) + 1) <<< 7) <;>
          simp [rleLoop, rleStep, emitRuns, hc, hsp, hb, SPECIAL_LENGTH_MARKER, hcb]
      · cases hcb : createColorBytearray mode cmap prevColor
            (((prevLength &&& 0x7f) + 1) <<< 7) <;>
          simp [rleLoop, rleStep, emitRuns, hc, hsp, hb, SPECIAL_LENGTH_MARKER, hcb]

/-- Witness for C1: the spec's scenario S4, `0x61 0x80 0x62 0x00`, decodes (with
the default grayscale palette) to 128 black pixels followed by one
background/transparent pixel. -/
theorem rle_held_pair_extension_witness :
    rleLoop .grayscale (createColormap DEFAULT_COLORPALETTE) false (1404 * 1872)
        [0x61, 0x80, 0x62, 0x00] none [] =
      .ok (List.replicate 128 0x00 ++ [0xff]) := by
  have h := rle_held_pair_extension .grayscale (createColormap DEFAULT_COLORPALETTE)
    false (1404 * 1872) 0x61 0x80 0x62 0x00 [] [] (by decide) (by decide)
  rw [h]
  decide

/-- **C3** (RLE special length byte and the `all_blank` flag): a fresh pair
`(c, 0xFF)` (no pair held) emits one run of length `0x400` when `all_blank` is set
and `0x4000` otherwise; and `ImageConverter._convert_layered_page` sets `all_blank`
exactly for a layer named `BGLAYER` of a page whose `PAGESTYLE` is `style_white`
and whose compressed content size is `0x140E` bytes. -/
theorem rle_special_length_byte :
    (∀ (mode : ColorMode) (cmap : List (Nat × Nat)) (allBlank : Bool)
        (expected colorcode : Nat) (rest acc : List Nat),
      rleLoop mode cmap allBlank expected (colorcode :: 0xff :: rest) none acc =
        match createColorBytearray mode cmap colorcode
            (if allBlank then 0x400 else 0x4000) with
        | .error e => .error e
        | .ok bs => rleLoop mode cmap allBlank expected rest none (acc ++ bs)) ∧
    (∀ (layerName : String) (pageStyle : Option String) (binarySize : Nat),
      Converter.allBlankFlag layerName pageStyle binarySize = true ↔
        (layerName = "BGLAYER" ∧ pageStyle = some "style_white" ∧
          binarySize = 0x140e)) := by
  constructor
  · intro mode cmap allBlank expected colorcode rest acc
    cases allBlank <;>
      cases hcb : createColorBytearray mode cmap colorcode
          (if _ = true then 0x400 else 0x4000) <;>
      simp_all [rleLoop, rleStep, emitRuns, SPECIAL_LENGTH_MARKER,
        SPECIAL_LENGTH, SPECIAL_LENGTH_FOR_BLANK]
  · intro layerName pageStyle binarySize
    simp only [Converter.allBlankFlag, Converter.SPECIAL_WHITE_STYLE_BLOCK_SIZE,
      Bool.and_eq_true, decide_eq_true_eq]
    constructor
    · rintro ⟨⟨⟨h1, h2⟩, h3⟩, h4⟩
      exact ⟨h1, h3, h4⟩
    · rintro ⟨h1, h2, h3⟩
      exact ⟨⟨⟨h1, by simp [h2]⟩, h2⟩, h3⟩

/-- **C4** (RLE end-of-stream tail adjustment): if the stream ends (no bytes left,
or a lone colorcode byte) while `(colorcode, length)` is held, the decoder emits
the held color with length `((length &&& 0x7F) + 1) <<< i` for the largest
`i ∈ {7,…,0}` such that that length does not exceed
`gap = expected − emitted`; if even `i = 0` overshoots, the held pair is discarded
and nothing is emitted. -/
theorem rle_tail_adjustment :
    (∀ (mode : ColorMode) (cmap : List (Nat × Nat)) (allBlank : Bool)
        (expected d colorcode length : Nat) (acc : List Nat),
      rleLoop mode cmap allBlank expected [d] (some (colorcode, length)) acc =
        rleLoop mode cmap allBlank expected [] (some (colorcode, length)) acc) ∧
    (∀ (mode : ColorMode) (cmap : List (Nat × Nat)) (allBlank : Bool)
        (expected colorcode length : Nat) (acc : List Nat),
      (∃ i, i < 8 ∧
        ((((length &&& 0x7f) + 1) <<< i : Nat) : Int) ≤ (expected : Int) - acc.length ∧
        (∀ j, j < 8 → i < j →
          ¬(((((length &&& 0x7f) + 1) <<< j : Nat) : Int) ≤ (expected : Int) - acc.length)) ∧
        rleLoop mode cmap allBlank expected [] (some (colorcode, length)) acc =
          match createColorBytearray mode cmap colorcode
              (((length &&& 0x7f) + 1) <<< i) with
          | .error e => .error e
          | .ok bs => .ok (acc ++ bs)) ∨
      ((∀ i, i < 8 →
          ¬(((((length &&& 0x7f) + 1) <<< i : Nat) : Int) ≤ (expected : Int) - acc.length)) ∧
        rleLoop mode cmap allBlank expected [] (some (colorcode, length)) acc =
          .ok acc)) := by
  constructor
  · intro mode cmap allBlank expected d colorcode length acc
    simp [rleLoop]
  · intro mode cmap allBlank expected colorcode length acc
    have hloop : rleLoop mode cmap allBlank expected [] (some (colorcode, length)) acc =
        rleTail mode cmap expected (some (colorcode, length)) acc := by
      simp [rleLoop]
    set gap : Int := (expected : Int) - acc.length with hgap
    set b : Nat := (length &&& 0x7f) + 1 with hb
    have hpos : ∀ i : Nat, 0 < b <<< i := fun i => shiftLeft_succ_pos _ i
    have htail : ∀ l : Nat,
        adjustTailLength length acc.length expected = l → 0 < l →
        rleLoop mode cmap allBlank expected [] (some (colorcode, length)) acc =
          match createColorBytearray mode cmap colorcode l with
          | .error e => .error e
          | .ok bs => .ok (acc ++ bs) := by
      intro l hl hlpos
      rw [hloop]
      simp only [rleTail, hl, if_pos hlpos]
    by_cases h7 : ((b <<< 7 : Nat) : Int) ≤ gap
    · refine Or.inl ⟨7, by omega, h7, ?_, ?_⟩
      · intro j hj8 hj7; omega
      · refine htail _ ?_ (hpos 7)
        simp [adjustTailLength, adjustTailAux, ← hb, ← hgap, h7]
    · by_cases h6 : ((b <<< 6 : Nat) : Int) ≤ gap
      · refine Or.inl ⟨6, by omega, h6, ?_, ?_⟩
        · intro j hj8 hj6
          interval_cases j <;> simp_all
        · refine htail _ ?_ (hpos 6)
          simp [adjustTailLength, adjustTailAux, ← hb, ← hgap, h7, h6]
      · by_cases h5 : ((b <<< 5 : Nat) : Int) ≤ gap
        · refine Or.inl ⟨5, by omega, h5, ?_, ?_⟩
          · intro j hj8 hj5
            interval_cases j <;> simp_all
          · refine htail _ ?_ (hpos 5)
            simp [adjustTailLength, adjustTailAux, ← hb, ← hgap, h7, h6, h5]
        · by_cases h4 : ((b <<< 4 : Nat) : Int) ≤ gap
          · refine Or.inl ⟨4, by omega, h4, ?_, ?_⟩
            · intro j hj8 hj4
              interval_cases j <;> simp_all
            · refine htail _ ?_ (hpos 4)
              simp [adjustTailLength, adjustTailAux, ← hb, ← hgap, h7, h6, h5, h4]
          · by_cases h3 : ((b <<< 3 : Nat) : Int) ≤ gap
            · refine Or.inl ⟨3, by omega, h3, ?_, ?_⟩
              · intro j hj8 hj3
                interval_cases j <;> simp_all
              · refine htail _ ?_ (hpos 3)
                simp [adjustTailLength, adjustTailAux, ← hb, ← hgap, h7, h6, h5, h4, h3]
            · by_cases h2 : ((b <<< 2 : Nat) : Int) ≤ gap
              · refine Or.inl ⟨2, by omega, h2, ?_, ?_⟩
                · intro j hj8 hj2
                  interval_cases j <;> simp_all
                · refine htail _ ?_ (hpos 2)
                  simp [adjustTailLength, adjustTailAux, ← hb, ← hgap, h7, h6, h5, h4, h3, h2]
              · by_cases h1 : ((b <<< 1 : Nat) : Int) ≤ gap
                · refine Or.inl ⟨1, by omega, h1, ?_, ?_⟩
                  · intro j hj8 hj1
                    interval_cases j <;> simp_all
                  · refine htail _ ?_ (hpos 1)
                    simp [adjustTailLength, adjustTailAux, ← hb, ← hgap,
                      h7, h6, h5, h4, h3, h2, h1]
                · by_cases h0 : ((b : Nat) : Int) ≤ gap
                  · refine Or.inl ⟨0, by omega, by simpa using h0, ?_, ?_⟩
                    · intro j hj8 hj0
                      interval_cases j <;> simp_all
                    · refine htail _ ?_ (hpos 0)
                      simp [adjustTailLength, adjustTailAux, ← hb, ← hgap,
                        h7, h6, h5, h4, h3, h2, h1, h0]
                  · refine Or.inr ⟨?_, ?_⟩
                    · intro i hi
                      interval_cases i <;> simp_all
                    · rw [hloop]
                      have hl0 : adjustTailLength length acc.length expected = 0 := by
                        simp [adjustTailLength, adjustTailAux, ← hb, ← hgap,
                          h7, h6, h5, h4, h3, h2, h1, h0]
                      simp [rleTail, hl0]

/-- Witness for C4: a stream ending in a held pair `(0x61, 0x80)` with nothing
still expected (`gap = 0`): every candidate length overshoots, so the held pair is
discarded and nothing is emitted. -/
theorem rle_tail_adjustment_witness :
    rleLoop .grayscale (createColormap DEFAULT_COLORPALETTE) false 0 []
        (some (0x61, 0x80)) [] = .ok [] := by
  rcases rle_tail_adjustment.2 .grayscale (createColormap DEFAULT_COLORPALETTE)
      false 0 0x61 0x80 [] with ⟨i, _, hle, _, _⟩ | ⟨_, heq⟩
  · exfalso
    have hp : 0 < ((0x80 &&& 0x7f) + 1) <<< i := shiftLeft_succ_pos _ i
    simp only [List.length_nil, Nat.cast_zero] at hle
    omega
  · exact heq

/-- **C2 (amended)**: with `(page_width, page_height) = (1404, 1872)`,
`RattaRleDecoder.decode` either returns a buffer of exactly
`1404 * 1872 * (bit_per_pixel / 8)` bytes (with `bit_per_pixel` 24 in RGB mode and
8 in grayscale mode and the reported size swapped when `horizontal`), or raises an
exception — `DecoderException` on an output-length mismatch, but also `TypeError`
on a color code missing from the colormap and `ValueError` on a non-byte grayscale
palette entry; it never returns a buffer of any other length. -/
theorem rle_decode_length_postcondition :
    ∀ (palette : ColorPalette) (allBlank horizontal : Bool) (data : List Nat),
      match rleDecode data 1404 1872 (some palette) allBlank horizontal with
      | .ok (buf, size, bitPerPixel) =>
          bitPerPixel = (match palette.mode with | .rgb => 24 | .grayscale => 8) ∧
          buf.length = 1404 * 1872 * (bitPerPixel / 8) ∧
          size = (if horizontal then (1872, 1404) else (1404, 1872))
      | .error e => e = .decoderException ∨ e = .typeError ∨ e = .valueError := by
  intro palette allBlank horizontal data
  cases hres : rleDecode data 1404 1872 (some palette) allBlank horizontal with
  | error e =>
    simp only [hres]
    unfold rleDecode at hres
    simp only [Option.getD_some] at hres
    split at hres
    · rename_i e' heq
      injection hres with h'
      subst h'
      exact Or.inr (rleLoop_error _ _ _ _ heq)
    · split at hres <;> split at hres <;>
        first
          | (injection hres with h'; exact Or.inl h'.symm)
          | exact absurd hres (by simp)
  | ok t =>
    obtain ⟨buf, size, bpp⟩ := t
    simp only [hres]
    unfold rleDecode at hres
    simp only [Option.getD_some] at hres
    split at hres
    · exact absurd hres (by simp)
    · rename_i un heq
      split at hres <;> split at hres <;>
        first
          | exact Except.noConfusion hres
          | (simp only [Except.ok.injEq, Prod.mk.injEq] at hres
             obtain ⟨hbuf, hsize, hbpp⟩ := hres
             subst hbuf
             subst hbpp
             subst hsize
             cases hm : palette.mode <;> simp_all <;> try omega)

/-- Counterexample to C2 as stated: on the two-byte stream `0x00 0x00` — a color
code the colormap does not contain — `RattaRleDecoder.decode` raises `TypeError`
(from `bytearray((None,))`), not `DecoderException`, so "returns the exact-length
buffer or raises DecoderError" fails. -/
theorem rle_decode_length_counterexample :
    rleDecode [0x00, 0x00] 1404 1872 (some DEFAULT_COLORPALETTE) false false =
      .error .typeError ∧
    (PyErr.typeError == PyErr.decoderException) = false := by
  constructor
  · decide
  · decide

end RattaRle

namespace Flate

theorem u16FromPairs_length : ∀ l : List Nat, (u16FromPairs l).length = l.length / 2
  | [] => by simp [u16FromPairs]
  | [_] => by simp [u16FromPairs]
  | _ :: _ :: rest => by
    simp only [u16FromPairs, List.length_cons, u16FromPairs_length rest]
    omega

theorem rot90cw_length (rows cols : Nat) (d : List Nat) :
    (rot90cw rows cols d).length = cols * rows := by
  simp [rot90cw]

theorem deleteBottomRows_length (rows cols k : Nat) (d : List Nat) :
    (deleteBottomRows rows cols k d).length = min ((rows - k) * cols) d.length := by
  simp [deleteBottomRows]

theorem maskAssign_length (code v : Nat) (d : List Nat) :
    (maskAssign code v d).length = d.length := by
  simp [maskAssign]

theorem flatten_quad_length :
    ∀ l : List Nat,
      (List.flatten (l.map fun v =>
        [v / 2 ^ 24 % 256, v / 2 ^ 16 % 256, v / 2 ^ 8 % 256, v % 256])).length =
      4 * l.length
  | [] => rfl
  | x :: rest => by
    simp only [List.map_cons, List.flatten_cons, List.length_append,
      List.length_cons, List.length_nil, flatten_quad_length rest]
    omega

/-- **C6 (amended)** (Flate decoder output size): after zlib decompression (the
input below), reinterpretation as 16-bit pixels, the 1404 × 1888 reshape, the
90-degree clockwise rotation and the 16-row trim, the intermediate bitmap holds
exactly 1404 × 1872 sixteen-bit pixels; but `FlateDecoder.decode` then converts to
the palette and returns `1404 × 1872 × 1` bytes in grayscale mode (bpp 8) or
`1404 × 1872 × 4` bytes in RGB mode (bpp 32) — never `1404 × 1872 × 2` bytes.
Malformed input sizes raise `ValueError`. -/
theorem flate_decode_output_size :
    (∀ x : List Nat,
      (deleteBottomRows INTERNAL_PAGE_HEIGHT INTERNAL_PAGE_WIDTH 16
        (rot90cw INTERNAL_PAGE_WIDTH INTERNAL_PAGE_HEIGHT x)).length = 1404 * 1872) ∧
    (∀ (uncompressed : List Nat) (pageWidth pageHeight : Nat) (palette : ColorPalette),
      match flateDecode uncompressed pageWidth pageHeight (some palette) with
      | .ok (buf, size, bitPerPixel) =>
          bitPerPixel = (match palette.mode with | .rgb => 32 | .grayscale => 8) ∧
          buf.length =
            1404 * 1872 * (match palette.mode with | .rgb => 4 | .grayscale => 1) ∧
          size = (pageWidth, pageHeight)
      | .error e => e = .valueError) := by
  constructor
  · intro x
    simp only [deleteBottomRows_length, rot90cw_length,
      INTERNAL_PAGE_HEIGHT, INTERNAL_PAGE_WIDTH]
    omega
  · intro uncompressed pageWidth pageHeight palette
    cases hres : flateDecode uncompressed pageWidth pageHeight (some palette) with
    | error e =>
      simp only [hres]
      unfold flateDecode at hres
      simp only [Option.getD_some] at hres
      split at hres
      · injection hres with h'
        exact h'.symm
      · split at hres
        · injection hres with h'
          exact h'.symm
        · split at hres <;> exact Except.noConfusion hres
    | ok t =>
      obtain ⟨buf, size, bpp⟩ := t
      simp only [hres]
      unfold flateDecode at hres
      simp only [Option.getD_some] at hres
      split at hres
      · exact Except.noConfusion hres
      · split at hres
        · exact Except.noConfusion hres
        · rename_i hodd hcount
          split at hres <;>
            (simp only [Except.ok.injEq, Prod.mk.injEq] at hres
             obtain ⟨hbuf, hsize, hbpp⟩ := hres
             subst hbuf
             subst hbpp
             subst hsize) <;>
            rename_i hmode
          · -- rgb branch (the first arm of the palette-mode match)
            refine ⟨by simp [hmode], ?_, rfl⟩
            simp only [flatten_quad_length, maskAssign_length, deleteBottomRows_length,
              rot90cw_length, INTERNAL_PAGE_HEIGHT, INTERNAL_PAGE_WIDTH]
            omega
          · -- grayscale branch
            refine ⟨by simp [hmode], ?_, rfl⟩
            simp only [List.length_map, maskAssign_length, deleteBottomRows_length,
              rot90cw_length, INTERNAL_PAGE_HEIGHT, INTERNAL_PAGE_WIDTH]
            omega

/-- Counterexample to C6 as stated: decoding an all-zero internal grid
(`1404 * 1888` sixteen-bit pixels, i.e. `1404 * 1888 * 2` decompressed bytes) with
the default grayscale palette returns a buffer of `1404 * 1872 * 1` bytes — not
`1404 * 1872 * 2` as the claim asserts. -/
theorem flate_decode_output_size_counterexample :
    (flateDecode (List.replicate (1404 * 1888 * 2) 0) 1404 1872
        (some DEFAULT_COLORPALETTE)).map (fun r => r.1.length) =
      .ok (1404 * 1872 * 1) ∧
    (1404 * 1872 * 1 == 1404 * 1872 * 2) = false := by
  constructor
  · simp only [flateDecode, List.length_replicate, u16FromPairs_length,
      Option.getD_some, DEFAULT_COLORPALETTE, INTERNAL_PAGE_HEIGHT, INTERNAL_PAGE_WIDTH]
    norm_num
    simp only [Except.map, List.length_map, maskAssign_length, deleteBottomRows_length,
      rot90cw_length, u16FromPairs_length, List.length_replicate, Except.ok.injEq]
    omega
  · decide

end Flate

section DictLemmas

variable {α : Type}

theorem dictSet_absent {ps : List (String × α)} {k : String} (v : α)
    (h : dictGet ps k = none) : dictSet ps k v = ps ++ [(k, v)] := by
  induction ps with
  | nil => rfl
  | cons hd tl ih =>
    obtain ⟨k', v'⟩ := hd
    simp only [dictGet] at h
    simp only [dictSet]
    split at h
    · exact absurd h (by simp)
    · rename_i hk
      rw [if_neg hk]
      simp [ih h]

theorem dictGet_pop_of_nodup {ps : List (String × α)} {k : String}
    (h : (ps.map Prod.fst).Nodup) : dictGet (dictPop ps k) k = none := by
  induction ps with
  | nil => rfl
  | cons hd tl ih =>
    obtain ⟨k', v'⟩ := hd
    simp only [List.map_cons, List.nodup_cons] at h
    simp only [dictPop]
    by_cases hk : k' = k
    · subst hk
      rw [if_pos rfl]
      -- k' does not occur in tl, so the lookup misses
      clear ih
      induction tl with
      | nil => rfl
      | cons hd2 tl2 ih2 =>
        obtain ⟨k2, v2⟩ := hd2
        simp only [List.map_cons, List.mem_cons, List.nodup_cons] at h
        simp only [dictGet]
        rw [if_neg (by tauto)]
        exact ih2 ⟨fun hm => h.1 (Or.inr hm), h.2.2⟩
    · rw [if_neg hk]
      simp only [dictGet]
      rw [if_neg hk]
      exact ih h.2

theorem dictSet_keys {ps : List (String × α)} {k : String} {w : α} (v : α)
    (h : dictGet ps k = some w) :
    (dictSet ps k v).map Prod.fst = ps.map Prod.fst := by
  induction ps with
  | nil => simp [dictGet] at h
  | cons hd tl ih =>
    obtain ⟨k', v'⟩ := hd
    simp only [dictGet] at h
    simp only [dictSet]
    by_cases hk : k' = k
    · subst hk
      simp
    · rw [if_neg hk] at h ⊢
      simp [ih h]

theorem dictGet_set (ps : List (String × α)) (k : String) (v : α) :
    dictGet (dictSet ps k v) k = some v := by
  induction ps with
  | nil => simp [dictSet, dictGet]
  | cons hd tl ih =>
    obtain ⟨k', v'⟩ := hd
    simp only [dictSet]
    by_cases hk : k' = k
    · subst hk
      simp [dictGet]
    · rw [if_neg hk]
      simp only [dictGet]
      rw [if_neg hk]
      exact ih

end DictLemmas

namespace Tokenizer

/-- **C7 (amended)** (duplicate-key policy of `_extract_parameters`): a fresh key
is appended at the end as a scalar; a duplicate of a key holding a non-empty scalar
`s` is promoted to the ordered pair `[s, v]`, but the `pop` + reassignment moves
the key to the END of the mapping order, so the order of first appearance is not
preserved for promoted keys; a duplicate of a key holding the empty-string scalar
simply overwrites it in place (the first value is lost, because
`if params.get(key):` is a truthiness test); a further duplicate of a promoted key
appends to the list in place. -/
theorem extract_parameters_duplicate_policy :
    (∀ (ps : Params) (k v : String), dictGet ps k = none →
      insertParam ps k v = ps ++ [(k, ParamValue.str v)]) ∧
    (∀ (ps : Params) (k v s : String), (ps.map Prod.fst).Nodup →
      dictGet ps k = some (ParamValue.str s) → s ≠ "" →
      insertParam ps k v = dictPop ps k ++ [(k, ParamValue.list [s, v])]) ∧
    (∀ (ps : Params) (k v : String), dictGet ps k = some (ParamValue.str "") →
      (insertParam ps k v).map Prod.fst = ps.map Prod.fst ∧
      dictGet (insertParam ps k v) k = some (ParamValue.str v)) ∧
    (∀ (ps : Params) (k v : String) (a : String) (l : List String),
      dictGet ps k = some (ParamValue.list (a :: l)) →
      (insertParam ps k v).map Prod.fst = ps.map Prod.fst ∧
      dictGet (insertParam ps k v) k = some (ParamValue.list (a :: l ++ [v]))) := by
  refine ⟨?_, ?_, ?_, ?_⟩
  · intro ps k v h
    simp only [insertParam, h]
    exact dictSet_absent _ h
  · intro ps k v s hnd h hs
    simp only [insertParam, h, ParamValue.truthy]
    rw [if_pos (by simpa using hs)]
    exact dictSet_absent _ (dictGet_pop_of_nodup hnd)
  · intro ps k v h
    simp only [insertParam, h, ParamValue.truthy]
    rw [if_neg (by simp)]
    exact ⟨dictSet_keys _ h, dictGet_set ps k _⟩
  · intro ps k v a l h
    simp only [insertParam, h, ParamValue.truthy]
    rw [if_pos (by simp)]
    exact ⟨dictSet_keys _ h, dictGet_set ps k _⟩

/-- Witness for C7: promoting the duplicated key `A` in
`[("A","1"), ("B","2")]` moves it after `B` with the collected values. -/
theorem extract_parameters_duplicate_policy_witness :
    insertParam [("A", ParamValue.str "1"), ("B", ParamValue.str "2")] "A" "3" =
      [("B", ParamValue.str "2"), ("A", ParamValue.list ["1", "3"])] := by
  have h := extract_parameters_duplicate_policy.2.1
    [("A", ParamValue.str "1"), ("B", ParamValue.str "2")] "A" "3" "1"
    (by decide) (by decide) (by decide)
  rw [h]
  decide

/-- Counterexample to C7 as stated: in `<A:1><B:2><A:3>` the key `A` appears first
but ends up after `B` (order of first appearance not preserved), and in `<A:><A:x>`
the empty first value of `A` is overwritten rather than collected into a list. -/
theorem extract_parameters_duplicate_counterexample :
    extractParameters "<A:1><B:2><A:3>" =
      [("B", ParamValue.str "2"), ("A", ParamValue.list ["1", "3"])] ∧
    ((extractParameters "<A:1><B:2><A:3>").map Prod.fst == ["A", "B"]) = false ∧
    extractParameters "<A:><A:x>" = [("A", ParamValue.str "x")] := by
  refine ⟨by decide, by decide, by decide⟩

/-- **C8 (amended)**: when no `<KEY:VALUE>` token matches, `_extract_parameters`
returns the empty mapping — it raises nothing, and no `MalformedMetadata`
exception class exists in `exceptions.py`. -/
theorem extract_parameters_no_match :
    (∀ s : String, findTokens s.toList = [] → extractParameters s = []) ∧
    supernoteExceptionClasses.contains "MalformedMetadata" = false := by
  constructor
  · intro s h
    rw [show s.toList = s.data from rfl] at h
    simp [extractParameters, String.toList, h]
  · decide

/-- Witness for C8: the non-empty payload `xyz` has no matching token and yields
the empty mapping. -/
theorem extract_parameters_no_match_witness :
    extractParameters "xyz" = [] := by
  exact extract_parameters_no_match.1 "xyz" (by decide)

/-- Counterexample to C8 as stated: `xyz` is a non-empty payload with no matching
token, yet the tokenizer returns the empty mapping instead of failing, and the
claimed `MalformedMetadata` class does not exist in the code. -/
theorem extract_parameters_no_match_counterexample :
    extractParameters "xyz" = [] ∧ ("xyz" == "") = false ∧
    supernoteExceptionClasses.contains "MalformedMetadata" = false := by
  refine ⟨by decide, by decide, by decide⟩

end Tokenizer

namespace Converter

/-- **C9 (amended)** (default MAINLAYER visibility): when the page HAS a
`LAYERINFO` and the parsed entries yield no `MAINLAYER` key (or yield it with a
`None` value), `_get_layer_visibility` defaults `MAINLAYER` to visible and the
compositing loop includes it.  (The no-`LAYERINFO` case is different — see the
counterexample: there the visibility dict is returned empty before the default is
applied, and MAINLAYER is skipped.) -/
theorem mainlayer_default_visibility :
    (∀ entries : List LayerInfoEntry,
      dictGet (layerVisibilityRaw entries) "MAINLAYER" = none →
      layerComposited (getLayerVisibility (some entries)) "MAINLAYER" = true) ∧
    (∀ entries : List LayerInfoEntry,
      dictGet (layerVisibilityRaw entries) "MAINLAYER" = some none →
      layerComposited (getLayerVisibility (some entries)) "MAINLAYER" = true) := by
  constructor <;> intro entries h <;>
    simp only [getLayerVisibility, h, layerComposited, dictGet_set]

/-- Witness for C9: an empty `LAYERINFO` array yields no `MAINLAYER` entry, and
the renderer composites MAINLAYER anyway. -/
theorem mainlayer_default_visibility_witness :
    layerComposited (getLayerVisibility (some [])) "MAINLAYER" = true :=
  mainlayer_default_visibility.1 [] (by decide)

/-- Counterexample to C9 as stated: when the page carries no `LAYERINFO` at all,
`_get_layer_visibility` returns the empty dict before the MAINLAYER default is
applied (converter.py lines 167-168), so the compositing test treats MAINLAYER as
NOT visible, contradicting the claim's "including the case where the page carries
no LAYERINFO at all". -/
theorem mainlayer_default_visibility_counterexample :
    getLayerVisibility none = [] ∧
    layerComposited (getLayerVisibility none) "MAINLAYER" = false := by
  refine ⟨rfl, rfl⟩

end Converter

theorem exceptBind_ok {ε α β : Type} {x : Except ε α} {f : α → Except ε β} {b : β}
    (h : x >>= f = .ok b) : ∃ a, x = .ok a ∧ f a = .ok b := by
  cases x with
  | error e => exact absurd h (by simp [Bind.bind, Except.bind])
  | ok a => exact ⟨a, rfl, by simpa [Bind.bind, Except.bind] using h⟩

/-- **C10 (amended)** (empty-notebook scenario): `parse_stream` can only succeed
when the footer carries a `FILE_FEATURE` key — with an EMPTY footer it raises
`TypeError` (`int(None)` in `_get_header_address`) instead of returning 0-page
metadata; and on a notebook with 0 pages, `Notebook.get_page` raises `IndexError`
for every page number, so rendering any page fails with an index-out-of-range
error. -/
theorem parse_empty_footer_requires_file_feature :
    (∀ (s : List Nat) (policy : Policy) (md : Meta),
      parseStreamX s policy = .ok md →
      (dictGet md.footer.params "FILE_FEATURE").isSome = true) ∧
    (∀ n : Int, notebookGetPage [] n = .error .indexError) := by
  constructor
  · intro s policy md h
    unfold parseStreamX at h
    obtain ⟨ft, -, h⟩ := exceptBind_ok h
    obtain ⟨sig, -, h⟩ := exceptBind_ok h
    split at h
    · exact Except.noConfusion h
    · obtain ⟨footer, -, h⟩ := exceptBind_ok h
      obtain ⟨headerAddress, hha, h⟩ := exceptBind_ok h
      obtain ⟨header, -, h⟩ := exceptBind_ok h
      obtain ⟨pageAddresses, -, h⟩ := exceptBind_ok h
      obtain ⟨pages, -, h⟩ := exceptBind_ok h
      injection h with h'
      subst h'
      cases hdg : dictGet footer.params "FILE_FEATURE" with
      | none => rw [hdg] at hha; exact absurd hha (by simp [pyIntObj])
      | some v => simp [hdg]
  · intro n
    simp only [notebookGetPage, List.length_nil, Nat.cast_zero]
    split
    · rfl
    · rename_i h
      simp only [Bool.or_eq_true, decide_eq_true_eq, not_or] at h
      omega

/-- Witness for C10 (amended): a 48-byte file whose footer holds only
`<FILE_FEATURE:0>` parses successfully into metadata with 0 pages and a
`FILE_FEATURE` key. -/
theorem parse_empty_footer_requires_file_feature_witness :
    (dictGet
      ({ filetype := "note", signature := "SN_FILE_VER_20230015", header := [],
         footer := { params := [("FILE_FEATURE", ParamValue.str "0")],
                     keywords := [], titles := [], links := [] },
         pages := [] } : Meta).footer.params "FILE_FEATURE").isSome = true :=
  parse_empty_footer_requires_file_feature.1
    (("noteSN_FILE_VER_20230015".toList.map Char.toNat) ++ [16, 0, 0, 0] ++
      ("<FILE_FEATURE:0>".toList.map Char.toNat) ++ [24, 0, 0, 0])
    .strict _ (by decide)

/-- Counterexample to C10 as stated: the spec's S1 file — 24 bytes holding only a
valid X-series signature, whose trailing four bytes (the footer pointer) lead to an
empty footer block — makes `parse_stream` raise `TypeError` (`int(None)` on the
missing `FILE_FEATURE`), not return metadata with 0 pages. -/
theorem parse_empty_footer_counterexample :
    ("noteSN_FILE_VER_20230015".toList.map Char.toNat).length = 24 ∧
    parseStreamX ("noteSN_FILE_VER_20230015".toList.map Char.toNat) .strict =
      .error .typeError := by
  refine ⟨by decide, by decide⟩

/-- **C5 (amended)**: `parser.load` can never return a `Notebook`: `Notebook`
defines no `get_links` method, so whenever the steps before parser.py line 108
succeed, `note.get_links()` raises `AttributeError`; the earlier cover, keyword and
title processing can instead raise another exception first (e.g. `ValueError` from
`int()` on a malformed `COVER_2`), but in every case `load` raises before
returning. -/
theorem load_never_returns :
    (∀ (md : Meta) (s : List Nat), isOkE (load md s) = false) ∧
    (∀ (md : Meta) (s : List Nat) (u : Unit), loadUpToLinks md s = .ok u →
      load md s = .error .attributeError) ∧
    notebookMethods.contains "get_links" = false := by
  have hgl : notebookGetLinks = .error .attributeError := by decide
  refine ⟨?_, ?_, by decide⟩
  · intro md s
    unfold load
    cases hpre : loadUpToLinks md s with
    | error e => simp [Bind.bind, Except.bind, hpre, isOkE]
    | ok u => simp [Bind.bind, Except.bind, hpre, hgl, isOkE]
  · intro md s u hpre
    unfold load
    simp [Bind.bind, Except.bind, hpre, hgl]

/-- Witness for C5: on an empty notebook (metadata with no cover, keywords, titles
or pages) every step before `note.get_links()` succeeds, and `load` raises
`AttributeError` there. -/
theorem load_never_returns_witness :
    load
      { filetype := "", signature := "", header := [],
        footer := { params := [], keywords := [], titles := [], links := [] },
        pages := [] } [] = .error .attributeError :=
  load_never_returns.2.1 _ [] () (by decide)

/-- Counterexample to C5 as stated: a stream whose footer is
`<FILE_FEATURE:0><COVER_2:x>` parses successfully, but `load` raises `ValueError`
(from `int('x')` in `_get_cover_address`) — not `AttributeError` — so "raises
AttributeError for every successfully parsed stream" is too strong; only "never
returns" holds unconditionally. -/
theorem load_attributeerror_counterexample :
    parseStreamX
        (("noteSN_FILE_VER_20230015".toList.map Char.toNat) ++ [27, 0, 0, 0] ++
          ("<FILE_FEATURE:0><COVER_2:x>".toList.map Char.toNat) ++ [24, 0, 0, 0])
        .strict =
      .ok
        { filetype := "note", signature := "SN_FILE_VER_20230015", header := [],
          footer := { params := [("FILE_FEATURE", ParamValue.str "0"),
                                ("COVER_2", ParamValue.str "x")],
                      keywords := [], titles := [], links := [] },
          pages := [] } ∧
    load
        { filetype := "note", signature := "SN_FILE_VER_20230015", header := [],
          footer := { params := [("FILE_FEATURE", ParamValue.str "0"),
                                ("COVER_2", ParamValue.str "x")],
                      keywords := [], titles := [], links := [] },
          pages := [] }
        (("noteSN_FILE_VER_20230015".toList.map Char.toNat) ++ [27, 0, 0, 0] ++
          ("<FILE_FEATURE:0><COVER_2:x>".toList.map Char.toNat) ++ [24, 0, 0, 0]) =
      .error .valueError ∧
    (PyErr.valueError == PyErr.attributeError) = false := by
  refine ⟨by decide, by decide, by decide⟩

end Supernote
